import Mathlib

/-!
Verification development for the `subscriptions` pallet of subsocial-node
(`pallets/subscriptions/src/lib.rs`), shallowly embedded in Lean 4.

Machine integers of the source (`u64` ids, balances, block numbers) are
modelled as `Nat`: none of the operations below performs subtraction or
wrap-around arithmetic on them except the currency transfer, where the
guard `amount ≤ fromBal` makes truncated subtraction exact.

Storage maps (`decl_storage!`) are modelled as association lists with
insert-or-replace semantics; `Vec` values default to `[]` and `Option`
values to `none`, matching the storage getters' defaults.

External collaborators (pallet_spaces, pallet_utils, the Currency trait)
and the pallet's own `functions.rs` module are not part of the embedded
source file; they are modelled from the specification and marked
`Modelled from the spec:` in their doc comments.
-/

namespace SubsocialSubscriptions

abbrev AccountId := Nat
abbrev SpaceId := Nat
abbrev Balance := Nat
abbrev BlockNumber := Nat
abbrev SubscriptionPlanId := Nat
abbrev SubscriptionId := Nat

inductive SubscriptionPeriod where
  | Daily
  | Weekly
  | Quarterly
  | Yearly
  | Custom (n : BlockNumber)
deriving DecidableEq

/-- Modelled from the spec: `WhoAndWhen<T>` lives in pallet_utils, outside the
embedded file; per the spec it is creation metadata: creator account plus the
block/time at which the action happened. -/
structure WhoAndWhen where
  account : AccountId
  block : BlockNumber
  time : Nat
deriving DecidableEq

/-- Modelled from the spec: `Content` lives in pallet_utils, outside the
embedded file; the spec treats it as an opaque descriptor subject to a
structural validity check only, so it is modelled by its validity bit. -/
structure Content where
  valid : Bool
deriving DecidableEq

structure SubscriptionPlan where
  id : SubscriptionPlanId
  created : WhoAndWhen
  updated : Option WhoAndWhen
  space_id : SpaceId
  wallet : Option AccountId
  price : Balance
  period : SubscriptionPeriod
  content : Content
  is_active : Bool
deriving DecidableEq

structure Subscription where
  id : SubscriptionId
  created : WhoAndWhen
  updated : Option WhoAndWhen
  wallet : Option AccountId
  plan_id : SubscriptionPlanId
  is_active : Bool
deriving DecidableEq

/-- Modelled from the spec: the space directory (pallet_spaces) is an external
collaborator; a `Space` exposes its id and a single registered owner. -/
structure Space where
  id : SpaceId
  owner : AccountId
deriving DecidableEq

/-- Error kinds of the pallet (`decl_error!`), together with the pass-through
failures of the external collaborators named by the spec (space directory,
content validator, currency transfer). -/
inductive Err where
  | AlreadySubscribed
  | NoPermissionToUpdateSubscriptionPlan
  | NotSubscriber
  | NothingToUpdate
  | PriceLowerExistencialDeposit
  | RecipientNotFound
  | SubscriptionNotFound
  | SubscriptionPlanNotFound
  | SpaceNotFound
  | NotSpaceOwner
  | InvalidContent
  | InsufficientBalance
deriving DecidableEq

/-- Association-list lookup; models a storage map read. -/
def lookupA {κ α : Type} [DecidableEq κ] (m : List (κ × α)) (k : κ) : Option α :=
  match m with
  | [] => none
  | (k2, v) :: rest => if k2 = k then some v else lookupA rest k

/-- Association-list insert-or-replace; models a storage map `insert`. -/
def insertA {κ α : Type} [DecidableEq κ] (m : List (κ × α)) (k : κ) (v : α) :
    List (κ × α) :=
  match m with
  | [] => [(k, v)]
  | (k2, v2) :: rest => if k2 = k then (k, v) :: rest else (k2, v2) :: insertA rest k v

/-- Add `amount` to the balance recorded for `k` (missing entries count 0). -/
def creditA (m : List (AccountId × Balance)) (k : AccountId) (amount : Balance) :
    List (AccountId × Balance) :=
  insertA m k ((lookupA m k).getD 0 + amount)

/-- Association-list removal; models a storage map `remove`. -/
def removeA {κ α : Type} [DecidableEq κ] (m : List (κ × α)) (k : κ) : List (κ × α) :=
  match m with
  | [] => []
  | (k2, v) :: rest => if k2 = k then removeA rest k else (k2, v) :: removeA rest k

/-- The pallet's storage (`decl_storage!`), plus the external currency
ledger's balances (needed because `subscribe` moves funds). -/
structure State where
  nextPlanId : SubscriptionPlanId
  planById : List (SubscriptionPlanId × SubscriptionPlan)
  planIdsBySpace : List (SpaceId × List SubscriptionPlanId)
  nextSubscriptionId : SubscriptionId
  subscriptionById : List (SubscriptionId × Subscription)
  subscriptionIdsByPatron : List (AccountId × List SubscriptionId)
  subscriptionIdsBySpace : List (SpaceId × List SubscriptionId)
  subscriptionIdsByPeriod : List (SubscriptionPeriod × List SubscriptionId)
  recipientWallet : List (SpaceId × AccountId)
  patronWallet : List (AccountId × AccountId)
  balances : List (AccountId × Balance)
deriving DecidableEq

/-- Genesis state: storage defaults of `decl_storage!` (both id counters
start at 1, every map empty) and an empty balance ledger. -/
def initialState : State :=
  { nextPlanId := 1
    planById := []
    planIdsBySpace := []
    nextSubscriptionId := 1
    subscriptionById := []
    subscriptionIdsByPatron := []
    subscriptionIdsBySpace := []
    subscriptionIdsByPeriod := []
    recipientWallet := []
    patronWallet := []
    balances := [] }

/-- Read-only environment: the external space directory, the currency's
minimum retainable (existential) balance, and the current block/time used
to stamp creation metadata. -/
structure Env where
  spaces : List (SpaceId × Space)
  minimumBalance : Balance
  block : BlockNumber
  time : Nat

/-- Storage getter `plan_ids_by_space` (a `Vec` map, default `[]`). -/
def plan_ids_by_space (st : State) (space_id : SpaceId) : List SubscriptionPlanId :=
  (lookupA st.planIdsBySpace space_id).getD []

/-- Storage getter `subscription_ids_by_patron` (a `Vec` map, default `[]`). -/
def subscription_ids_by_patron (st : State) (who : AccountId) : List SubscriptionId :=
  (lookupA st.subscriptionIdsByPatron who).getD []

/-- Storage getter `recipient_wallet` (an `Option` map, default `none`). -/
def recipient_wallet (st : State) (space_id : SpaceId) : Option AccountId :=
  lookupA st.recipientWallet space_id

/-- Modelled from the spec: the space directory's `require_space`, returning
the space or a not-found failure. -/
def require_space (env : Env) (space_id : SpaceId) : Except Err Space :=
  match lookupA env.spaces space_id with
  | some space => Except.ok space
  | none => Except.error Err.SpaceNotFound

/-- Modelled from the spec: `Space.ensure_space_owner`, failing when the given
account is not the space's registered owner. -/
def Space.ensure_space_owner (space : Space) (who : AccountId) : Except Err Unit :=
  if space.owner = who then Except.ok () else Except.error Err.NotSpaceOwner

/-- Modelled from the spec: pallet_utils' `is_valid_content`, a structural
check that either accepts the content or fails. -/
def is_valid_content (content : Content) : Except Err Unit :=
  if content.valid then Except.ok () else Except.error Err.InvalidContent

/-- Modelled from the spec: the currency's `transfer` with keep-alive
semantics — it fails when funds are insufficient or when the payer would be
left below the minimum retainable balance; on success it debits the payer
and credits the recipient by exactly `amount`. -/
def transferKeepAlive (minB : Balance) (balances : List (AccountId × Balance))
    (src dst : AccountId) (amount : Balance) : Except Err (List (AccountId × Balance)) :=
  if amount ≤ (lookupA balances src).getD 0 ∧
      minB ≤ (lookupA balances src).getD 0 - amount then
    Except.ok (creditA (insertA balances src ((lookupA balances src).getD 0 - amount))
      dst amount)
  else Except.error Err.InsufficientBalance

/-- Modelled from the spec: `SubscriptionPlan::new` from the pallet's
`functions.rs` (declared `pub mod functions;` but outside the embedded file);
per the spec a new plan carries fresh creation metadata, no update metadata,
and `is_active = true`. -/
def SubscriptionPlan.new (env : Env) (id : SubscriptionPlanId) (creator : AccountId)
    (space_id : SpaceId) (wallet : Option AccountId) (price : Balance)
    (period : SubscriptionPeriod) (content : Content) : SubscriptionPlan :=
  { id := id
    created := { account := creator, block := env.block, time := env.time }
    updated := none
    space_id := space_id
    wallet := wallet
    price := price
    period := period
    content := content
    is_active := true }

/-- Modelled from the spec: `Subscription::new` from `functions.rs`; a new
subscription carries fresh creation metadata, no update metadata, the
patron-supplied optional wallet, the plan back-reference and
`is_active = true`. -/
def Subscription.new (env : Env) (id : SubscriptionId) (patron : AccountId)
    (wallet : Option AccountId) (plan_id : SubscriptionPlanId) : Subscription :=
  { id := id
    created := { account := patron, block := env.block, time := env.time }
    updated := none
    wallet := wallet
    plan_id := plan_id
    is_active := true }

/-- Modelled from the spec: `require_plan` from `functions.rs` — the plan
registry's `get`, failing with `SubscriptionPlanNotFound`. -/
def require_plan (st : State) (plan_id : SubscriptionPlanId) :
    Except Err SubscriptionPlan :=
  match lookupA st.planById plan_id with
  | some plan => Except.ok plan
  | none => Except.error Err.SubscriptionPlanNotFound

/-- Modelled from the spec: `require_subscription` from `functions.rs` — the
subscription registry's `get`, failing with `SubscriptionNotFound`. -/
def require_subscription (st : State) (subscription_id : SubscriptionId) :
    Except Err Subscription :=
  match lookupA st.subscriptionById subscription_id with
  | some subscription => Except.ok subscription
  | none => Except.error Err.SubscriptionNotFound

/-- Modelled from the spec: `ensure_subscriptions_manager` from
`functions.rs`; currently the manager is exactly the space owner, and the
failure is `NoPermissionToUpdateSubscriptionPlan`. -/
def ensure_subscriptions_manager (who : AccountId) (space : Space) : Except Err Unit :=
  if space.owner = who then Except.ok ()
  else Except.error Err.NoPermissionToUpdateSubscriptionPlan

/-- Modelled from the spec: `Subscription.ensure_subscriber` from
`functions.rs`; the subscriber is the patron recorded in the subscription's
creation metadata, and the failure is `NotSubscriber`. -/
def Subscription.ensure_subscriber (subscription : Subscription) (who : AccountId) :
    Except Err Unit :=
  if subscription.created.account = who then Except.ok ()
  else Except.error Err.NotSubscriber

/-- The duplicate-subscription scan of `subscribe` (lib.rs lines 243-248):
over the caller's patron index, resolve each id and compare `plan_id`. -/
def is_already_subscribed (st : State) (sender : AccountId)
    (plan_id : SubscriptionPlanId) : Bool :=
  (subscription_ids_by_patron st sender).any (fun subscription_id =>
    match require_subscription st subscription_id with
    | Except.ok subscription => subscription.plan_id == plan_id
    | Except.error _ => false)

/-- Recipient resolution of `subscribe` (lib.rs lines 259-263): the plan's
wallet, else the space's recipient-wallet preference, else the space's
owner when the space resolves. -/
def resolve_recipient (env : Env) (st : State) (plan : SubscriptionPlan) :
    Option AccountId :=
  (plan.wallet.orElse (fun _ => recipient_wallet st plan.space_id)).orElse
    (fun _ => (Except.map Space.owner (require_space env plan.space_id)).toOption)

/-- Dispatchable `create_plan` (lib.rs lines 147-186). The `origin` is
modelled as the already-authenticated sender account. -/
def create_plan (env : Env) (st : State) (sender : AccountId) (space_id : SpaceId)
    (custom_wallet : Option AccountId) (price : Balance)
    (period : SubscriptionPeriod) (content : Content) : Except Err State :=
  match is_valid_content content with
  | Except.error e => Except.error e
  | Except.ok _ =>
    if env.minimumBalance ≤ price then
      match require_space env space_id with
      | Except.error e => Except.error e
      | Except.ok space =>
        match space.ensure_space_owner sender with
        | Except.error e => Except.error e
        | Except.ok _ =>
          let plan_id := st.nextPlanId
          let subscription_plan :=
            SubscriptionPlan.new env plan_id sender space_id custom_wallet price period content
          Except.ok { st with
            planById := insertA st.planById plan_id subscription_plan
            planIdsBySpace := insertA st.planIdsBySpace space_id
              (plan_ids_by_space st space_id ++ [plan_id])
            nextPlanId := st.nextPlanId + 1 }
    else Except.error Err.PriceLowerExistencialDeposit

/-- Dispatchable `update_plan` (lib.rs lines 189-203). -/
def update_plan (env : Env) (st : State) (sender : AccountId)
    (plan_id : SubscriptionPlanId) (new_wallet : Option AccountId) : Except Err State :=
  match require_plan st plan_id with
  | Except.error e => Except.error e
  | Except.ok plan =>
    match require_space env plan.space_id with
    | Except.error e => Except.error e
    | Except.ok space =>
      match ensure_subscriptions_manager sender space with
      | Except.error e => Except.error e
      | Except.ok _ =>
        if new_wallet ≠ plan.wallet then
          let plan := { plan with wallet := new_wallet }
          Except.ok { st with planById := insertA st.planById plan_id plan }
        else Except.error Err.NothingToUpdate

/-- Dispatchable `update_space_default_wallet` (lib.rs lines 207-224). -/
def update_space_default_wallet (env : Env) (st : State) (sender : AccountId)
    (space_id : SpaceId) (custom_wallet : Option AccountId) : Except Err State :=
  match require_space env space_id with
  | Except.error e => Except.error e
  | Except.ok space =>
    match space.ensure_space_owner sender with
    | Except.error e => Except.error e
    | Except.ok _ =>
      match custom_wallet with
      | some wallet =>
        Except.ok { st with recipientWallet := insertA st.recipientWallet space.id wallet }
      | none =>
        Except.ok { st with recipientWallet := removeA st.recipientWallet space.id }

/-- Dispatchable `delete_plan` (lib.rs lines 227-230): beyond signature
authentication it is a stub that succeeds and touches nothing. -/
def delete_plan (st : State) (sender : AccountId) (plan_id : SubscriptionPlanId) :
    Except Err State :=
  Except.ok st

/-- Dispatchable `subscribe` (lib.rs lines 233-278), translated line by line:
the (inverted) duplicate check, the id read (with no counter advance in the
source), recipient resolution, keep-alive transfer, then the single insert
into `SubscriptionById`. -/
def subscribe (env : Env) (st : State) (sender : AccountId)
    (plan_id : SubscriptionPlanId) (custom_wallet : Option AccountId) :
    Except Err State :=
  match require_plan st plan_id with
  | Except.error e => Except.error e
  | Except.ok plan =>
    if is_already_subscribed st sender plan_id then
      let subscription_id := st.nextSubscriptionId
      let subscription := Subscription.new env subscription_id sender custom_wallet plan_id
      match resolve_recipient env st plan with
      | none => Except.error Err.RecipientNotFound
      | some r =>
        match transferKeepAlive env.minimumBalance st.balances sender r plan.price with
        | Except.error e => Except.error e
        | Except.ok balances =>
          Except.ok { st with
            balances := balances
            subscriptionById := insertA st.subscriptionById subscription_id subscription }
    else Except.error Err.AlreadySubscribed

/-- Dispatchable `update_subscribtion` (sic, lib.rs lines 281-298). -/
def update_subscribtion (st : State) (sender : AccountId)
    (subscription_id : SubscriptionId) (new_wallet : Option AccountId) :
    Except Err State :=
  match require_subscription st subscription_id with
  | Except.error e => Except.error e
  | Except.ok subscription =>
    match subscription.ensure_subscriber sender with
    | Except.error e => Except.error e
    | Except.ok _ =>
      if new_wallet ≠ subscription.wallet then
        let subscription := { subscription with wallet := new_wallet }
        Except.ok { st with
          subscriptionById := insertA st.subscriptionById subscription_id subscription }
      else Except.error Err.NothingToUpdate

/-- Dispatchable `update_subscriptions_default_wallet` (lib.rs lines 302-315). -/
def update_subscriptions_default_wallet (st : State) (sender : AccountId)
    (custom_wallet : Option AccountId) : Except Err State :=
  match custom_wallet with
  | some wallet =>
    Except.ok { st with patronWallet := insertA st.patronWallet sender wallet }
  | none =>
    Except.ok { st with patronWallet := removeA st.patronWallet sender }

/-- Dispatchable `unsubscribe` (lib.rs lines 318-322): beyond signature
authentication it is a stub that succeeds and touches nothing. -/
def unsubscribe (st : State) (sender : AccountId) (plan_id : SubscriptionPlanId) :
    Except Err State :=
  Except.ok st

/-! ### Concrete scenario used to exercise the operations

One space (id 1, owner account 10), one plan (id 1, price 5, no wallet
override), a patron account 2, minimum retainable balance 1. -/

def env1 : Env :=
  { spaces := [(1, { id := 1, owner := 10 })], minimumBalance := 1, block := 0, time := 0 }

def plan1 : SubscriptionPlan :=
  SubscriptionPlan.new env1 1 10 1 none 5 SubscriptionPeriod.Daily { valid := true }

/-- State after the space owner created `plan1`: the plan stored and indexed,
the plan counter advanced, no subscriptions, patron 2 and owner 10 funded. -/
def st1 : State :=
  { nextPlanId := 2
    planById := [(1, plan1)]
    planIdsBySpace := [(1, [1])]
    nextSubscriptionId := 1
    subscriptionById := []
    subscriptionIdsByPatron := []
    subscriptionIdsBySpace := []
    subscriptionIdsByPeriod := []
    recipientWallet := []
    patronWallet := []
    balances := [(2, 100), (10, 50)] }

/-- A pre-existing active subscription of patron 2 to plan 1, with a wallet
override that distinguishes it from any freshly created record. -/
def oldSub : Subscription :=
  { id := 1
    created := { account := 2, block := 0, time := 0 }
    updated := none
    wallet := some 42
    plan_id := 1
    is_active := true }

/-- `st1` with `oldSub` both stored and present in patron 2's index, so the
duplicate-subscription scan of `subscribe` finds a match. -/
def st2 : State :=
  { st1 with
    subscriptionById := [(1, oldSub)]
    subscriptionIdsByPatron := [(2, [1])] }

/-- The state `subscribe` produces from `st2` for patron 2 on plan 1. -/
def stRes : State := (subscribe env1 st2 2 1 none).toOption.getD st2

/-! ### General lemmas about the embedding -/

theorem lookupA_insertA {κ α : Type} [DecidableEq κ] (m : List (κ × α)) (k k' : κ)
    (v : α) : lookupA (insertA m k v) k' = if k = k' then some v else lookupA m k' := by
  induction m with
  | nil => simp [insertA, lookupA]
  | cons hd tl ih =>
    obtain ⟨k2, v2⟩ := hd
    by_cases h2 : k2 = k
    · subst h2
      by_cases h3 : k2 = k'
      · subst h3
        simp [insertA, lookupA]
      · simp [insertA, lookupA, h3]
    · by_cases h3 : k2 = k'
      · subst h3
        simp [insertA, lookupA, h2, Ne.symm h2]
      · simp [insertA, lookupA, h2, h3, ih]

/-- Shape of every successful `subscribe`: the output state is the input
state with only `subscriptionById` (one insert at the unchanged counter
value) and `balances` replaced. -/
theorem subscribe_ok_shape (env : Env) (st : State) (sender : AccountId)
    (plan_id : SubscriptionPlanId) (w : Option AccountId) (st' : State)
    (h : subscribe env st sender plan_id w = Except.ok st') :
    ∃ bal, st' =
      { st with
        subscriptionById := insertA st.subscriptionById st.nextSubscriptionId
          (Subscription.new env st.nextSubscriptionId sender w plan_id)
        balances := bal } := by
  unfold subscribe at h
  split at h
  · exact Except.noConfusion h
  · split at h
    · split at h
      · exact Except.noConfusion h
      · split at h
        · exact Except.noConfusion h
        · injection h with h
          exact ⟨_, h.symm⟩
    · exact Except.noConfusion h

/-- Claim C1: the duplicate-subscription guard of `subscribe` is inverted in
the code. At `st1` patron 2 holds no subscription at all, yet the call fails
with `AlreadySubscribed`; at `st2` patron 2 already holds an active
subscription referencing plan 1, yet the guard passes and the call succeeds,
processing a second enrollment. -/
theorem subscribe_duplicate_check_inverted :
    subscription_ids_by_patron st1 2 = [] ∧
    subscribe env1 st1 2 1 none = Except.error Err.AlreadySubscribed ∧
    lookupA st2.subscriptionById 1 = some oldSub ∧
    oldSub.plan_id = 1 ∧ oldSub.is_active = true ∧
    subscription_ids_by_patron st2 2 = [1] ∧
    subscribe env1 st2 2 1 none = Except.ok stRes :=
  ⟨rfl, rfl, rfl, rfl, rfl, rfl, rfl⟩

/-- Claim C2: every successful `create_plan` advances the plan counter by
one (so plan ids are consecutive from 1), but every successful `subscribe`
leaves the subscription counter exactly as it was — the source never mutates
`NextSubscriptionId`, so subscription ids are not strictly increasing. -/
theorem id_counters (env : Env) (st : State) :
    (∀ sender space_id w price period content st',
        create_plan env st sender space_id w price period content = Except.ok st' →
        st'.nextPlanId = st.nextPlanId + 1) ∧
    (∀ sender plan_id w st',
        subscribe env st sender plan_id w = Except.ok st' →
        st'.nextSubscriptionId = st.nextSubscriptionId) := by
  constructor
  · intro sender space_id w price period content st' h
    unfold create_plan at h
    split at h
    · exact Except.noConfusion h
    · split at h
      · split at h
        · exact Except.noConfusion h
        · split at h
          · exact Except.noConfusion h
          · injection h with h
            rw [← h]
      · exact Except.noConfusion h
  · intro sender plan_id w st' h
    obtain ⟨bal, hb⟩ := subscribe_ok_shape env st sender plan_id w st' h
    rw [hb]

/-- State produced by the space owner creating `plan1` from genesis. -/
def stP : State :=
  (create_plan env1 initialState 10 1 none 5 SubscriptionPeriod.Daily
    { valid := true }).toOption.getD initialState

/-- Witness for `id_counters`: a concrete successful `create_plan` from the
genesis state takes the plan counter from 1 to 2, while a concrete
successful `subscribe` leaves the subscription counter at 1. -/
theorem id_counters_witness :
    create_plan env1 initialState 10 1 none 5 SubscriptionPeriod.Daily
      { valid := true } = Except.ok stP ∧
    initialState.nextPlanId = 1 ∧ stP.nextPlanId = 2 ∧
    subscribe env1 st2 2 1 none = Except.ok stRes ∧
    st2.nextSubscriptionId = 1 ∧ stRes.nextSubscriptionId = 1 := by
  refine ⟨rfl, rfl, ?_, rfl, rfl, ?_⟩
  · exact ((id_counters env1 initialState).1 10 1 none 5 SubscriptionPeriod.Daily
      { valid := true } stP rfl).trans rfl
  · exact ((id_counters env1 st2).2 2 1 none stRes rfl).trans rfl

/-- Claim C3: a successful `subscribe` does transfer exactly `plan.price`
(here 5: patron 2 goes 100 to 95, recipient 10 goes 50 to 55), but because
the subscription counter is never advanced the insert lands on the occupied
id 1 and replaces the existing record: the store does not grow and `oldSub`
is gone. -/
theorem subscribe_overwrites_existing_record :
    subscribe env1 st2 2 1 none = Except.ok stRes ∧
    lookupA st2.subscriptionById 1 = some oldSub ∧
    lookupA stRes.subscriptionById 1 = some (Subscription.new env1 1 2 none 1) ∧
    Subscription.new env1 1 2 none 1 ≠ oldSub ∧
    stRes.subscriptionById.length = st2.subscriptionById.length ∧
    plan1.price = 5 ∧
    lookupA st2.balances 2 = some 100 ∧ lookupA st2.balances 10 = some 50 ∧
    lookupA stRes.balances 2 = some 95 ∧ lookupA stRes.balances 10 = some 55 :=
  ⟨rfl, rfl, rfl, by decide, rfl, rfl, rfl, rfl, rfl, rfl⟩

/-- Claim C4: a successful `subscribe` appends the new subscription id to
none of the three indices — the patron, space and period index maps are
returned exactly as they were. -/
theorem subscribe_updates_no_index (env : Env) (st : State) (sender : AccountId)
    (plan_id : SubscriptionPlanId) (w : Option AccountId) (st' : State)
    (h : subscribe env st sender plan_id w = Except.ok st') :
    st'.subscriptionIdsByPatron = st.subscriptionIdsByPatron ∧
    st'.subscriptionIdsBySpace = st.subscriptionIdsBySpace ∧
    st'.subscriptionIdsByPeriod = st.subscriptionIdsByPeriod := by
  obtain ⟨bal, hb⟩ := subscribe_ok_shape env st sender plan_id w st' h
  rw [hb]
  exact ⟨rfl, rfl, rfl⟩

/-- Witness for `subscribe_updates_no_index`: the concrete successful
`subscribe` at `st2` changes no index map. -/
theorem subscribe_updates_no_index_witness :
    subscribe env1 st2 2 1 none = Except.ok stRes ∧
    stRes.subscriptionIdsByPatron = st2.subscriptionIdsByPatron ∧
    stRes.subscriptionIdsBySpace = st2.subscriptionIdsBySpace ∧
    stRes.subscriptionIdsByPeriod = st2.subscriptionIdsByPeriod := by
  have h := subscribe_updates_no_index env1 st2 2 1 none stRes rfl
  exact ⟨rfl, h.1, h.2.1, h.2.2⟩

/-- Claim C9: `delete_plan` and `unsubscribe` are stubs: for every caller
and every argument they return success and leave the whole state (plans,
subscriptions, indices, counters, wallet preferences, balances)
unchanged. -/
theorem stub_entry_points_no_op (st : State) (sender : AccountId)
    (plan_id : SubscriptionPlanId) :
    delete_plan st sender plan_id = Except.ok st ∧
    unsubscribe st sender plan_id = Except.ok st :=
  ⟨rfl, rfl⟩

/-- Evaluation of `subscribe` past a found plan and a passing duplicate
check: what remains is recipient resolution, the transfer, then the single
insert. -/
theorem subscribe_eq (env : Env) (st : State) (sender : AccountId)
    (plan_id : SubscriptionPlanId) (w : Option AccountId) (plan : SubscriptionPlan)
    (hp : require_plan st plan_id = Except.ok plan)
    (hs : is_already_subscribed st sender plan_id = true) :
    subscribe env st sender plan_id w =
      match resolve_recipient env st plan with
      | none => Except.error Err.RecipientNotFound
      | some r =>
        match transferKeepAlive env.minimumBalance st.balances sender r plan.price with
        | Except.error e => Except.error e
        | Except.ok balances =>
          Except.ok { st with
            balances := balances
            subscriptionById := insertA st.subscriptionById st.nextSubscriptionId
              (Subscription.new env st.nextSubscriptionId sender w plan_id) } := by
  unfold subscribe
  rw [hp, hs]
  rfl

/-- The only failure the modelled keep-alive transfer can raise. -/
theorem transferKeepAlive_error (minB : Balance) (balances : List (AccountId × Balance))
    (src dst : AccountId) (amount : Balance) (e : Err)
    (h : transferKeepAlive minB balances src dst amount = Except.error e) :
    e = Err.InsufficientBalance := by
  unfold transferKeepAlive at h
  split at h
  · exact Except.noConfusion h
  · injection h with h
    exact h.symm

/-- Claim C5: recipient resolution follows strict precedence — the plan's
wallet wins outright; else the space's recipient-wallet preference; else the
space's registered owner; and `subscribe` (past its earlier checks) fails
with `RecipientNotFound` exactly when all three are absent. -/
theorem recipient_resolution_precedence (env : Env) (st : State)
    (plan : SubscriptionPlan) :
    (∀ W, plan.wallet = some W → resolve_recipient env st plan = some W) ∧
    (plan.wallet = none → ∀ R, recipient_wallet st plan.space_id = some R →
        resolve_recipient env st plan = some R) ∧
    (plan.wallet = none → recipient_wallet st plan.space_id = none →
        ∀ space, lookupA env.spaces plan.space_id = some space →
        resolve_recipient env st plan = some space.owner) ∧
    (plan.wallet = none → recipient_wallet st plan.space_id = none →
        lookupA env.spaces plan.space_id = none →
        resolve_recipient env st plan = none) ∧
    (∀ sender plan_id w, require_plan st plan_id = Except.ok plan →
        is_already_subscribed st sender plan_id = true →
        resolve_recipient env st plan = none →
        subscribe env st sender plan_id w = Except.error Err.RecipientNotFound) ∧
    (∀ sender plan_id w r, require_plan st plan_id = Except.ok plan →
        is_already_subscribed st sender plan_id = true →
        resolve_recipient env st plan = some r →
        subscribe env st sender plan_id w ≠ Except.error Err.RecipientNotFound) := by
  refine ⟨?_, ?_, ?_, ?_, ?_, ?_⟩
  · intro W hW
    simp [resolve_recipient, hW, Option.orElse]
  · intro h0 R hR
    simp [resolve_recipient, h0, hR, Option.orElse]
  · intro h0 h1 space hs
    simp [resolve_recipient, h0, h1, hs, Option.orElse, require_space,
      Except.map, Except.toOption]
  · intro h0 h1 h2
    simp [resolve_recipient, h0, h1, h2, Option.orElse, require_space,
      Except.map, Except.toOption]
  · intro sender plan_id w hp hs hr
    rw [subscribe_eq env st sender plan_id w plan hp hs, hr]
  · intro sender plan_id w r hp hs hr
    rw [subscribe_eq env st sender plan_id w plan hp hs, hr]
    cases htr : transferKeepAlive env.minimumBalance st.balances sender r plan.price with
    | error e =>
      have he := transferKeepAlive_error env.minimumBalance st.balances sender r
        plan.price e htr
      subst he
      simp [htr]
    | ok balances => simp [htr]

/-- A plan whose wallet override is set. -/
def planW : SubscriptionPlan := { plan1 with wallet := some 5 }

/-- `st1` with a recipient-wallet preference recorded for space 1. -/
def stR : State := { st1 with recipientWallet := [(1, 7)] }

/-- A plan referencing a space id (9) absent from the directory. -/
def plan9 : SubscriptionPlan := { plan1 with space_id := 9 }

/-- `st2` with plan 1 pointing at the nonexistent space 9, so no recipient
resolves. -/
def st9 : State := { st2 with planById := [(1, plan9)] }

/-- Witness for `recipient_resolution_precedence`: each precedence tier and
both `subscribe` outcomes, at concrete inputs. -/
theorem recipient_resolution_precedence_witness :
    resolve_recipient env1 st1 planW = some 5 ∧
    resolve_recipient env1 stR plan1 = some 7 ∧
    resolve_recipient env1 st1 plan1 = some 10 ∧
    resolve_recipient env1 st1 plan9 = none ∧
    subscribe env1 st9 2 1 none = Except.error Err.RecipientNotFound ∧
    subscribe env1 st2 2 1 none ≠ Except.error Err.RecipientNotFound :=
  ⟨(recipient_resolution_precedence env1 st1 planW).1 5 rfl,
   (recipient_resolution_precedence env1 stR plan1).2.1 rfl 7 rfl,
   (recipient_resolution_precedence env1 st1 plan1).2.2.1 rfl rfl
     { id := 1, owner := 10 } rfl,
   (recipient_resolution_precedence env1 st1 plan9).2.2.2.1 rfl rfl rfl,
   (recipient_resolution_precedence env1 st9 plan9).2.2.2.2.1 2 1 none rfl rfl rfl,
   (recipient_resolution_precedence env1 st2 plan1).2.2.2.2.2 2 1 none 10 rfl rfl rfl⟩

/-- Claim C6: when the currency transfer fails, `subscribe` aborts with that
very transfer error; the registry insert is sequenced strictly after a
successful transfer, so no subscription record, index entry or counter
change is committed. -/
theorem subscribe_transfer_failure_aborts (env : Env) (st : State) (sender : AccountId)
    (plan_id : SubscriptionPlanId) (w : Option AccountId) (plan : SubscriptionPlan)
    (r : AccountId) (e : Err)
    (hp : require_plan st plan_id = Except.ok plan)
    (hs : is_already_subscribed st sender plan_id = true)
    (hr : resolve_recipient env st plan = some r)
    (ht : transferKeepAlive env.minimumBalance st.balances sender r plan.price =
      Except.error e) :
    subscribe env st sender plan_id w = Except.error e := by
  rw [subscribe_eq env st sender plan_id w plan hp hs, hr]
  simp [ht]

/-- `st2` with patron 2 holding only 3 units, below plan 1's price of 5. -/
def st6 : State := { st2 with balances := [(2, 3)] }

/-- Witness for `subscribe_transfer_failure_aborts`: with insufficient funds
the concrete `subscribe` returns the transfer failure. -/
theorem subscribe_transfer_failure_aborts_witness :
    subscribe env1 st6 2 1 none = Except.error Err.InsufficientBalance :=
  subscribe_transfer_failure_aborts env1 st6 2 1 none plan1 10
    Err.InsufficientBalance rfl rfl rfl rfl

/-- Counterexample to claim C7 as stated: content validation precedes the
price check, so a call with invalid content and a price (0) strictly below
the minimum retainable balance (1) fails with `InvalidContent`, not with
`PriceLowerExistencialDeposit`. -/
theorem create_plan_content_checked_before_price :
    create_plan env1 st1 10 1 none 0 SubscriptionPeriod.Daily { valid := false } =
      Except.error Err.InvalidContent ∧
    (0 : Balance) < env1.minimumBalance ∧
    Err.InvalidContent ≠ Err.PriceLowerExistencialDeposit :=
  ⟨rfl, by decide, by decide⟩

/-- Claim C7 (amended): for every call to `create_plan` whose content is
valid and whose price is strictly below the minimum retainable balance, the
operation fails with `PriceLowerExistencialDeposit`; failing, it stores no
plan, adds no index entry and leaves the counter unchanged. -/
theorem create_plan_low_price_fails (env : Env) (st : State) (sender : AccountId)
    (space_id : SpaceId) (w : Option AccountId) (price : Balance)
    (period : SubscriptionPeriod) (content : Content)
    (hc : content.valid = true) (hlow : price < env.minimumBalance) :
    create_plan env st sender space_id w price period content =
      Except.error Err.PriceLowerExistencialDeposit := by
  unfold create_plan
  rw [is_valid_content, if_pos hc, if_neg (Nat.not_le.mpr hlow)]

/-- Witness for `create_plan_low_price_fails`: a concrete call with valid
content and price 0 against minimum balance 1. -/
theorem create_plan_low_price_fails_witness :
    (0 : Balance) < env1.minimumBalance ∧
    create_plan env1 st1 10 1 none 0 SubscriptionPeriod.Daily { valid := true } =
      Except.error Err.PriceLowerExistencialDeposit :=
  ⟨by decide, create_plan_low_price_fails env1 st1 10 1 none 0
    SubscriptionPeriod.Daily { valid := true } rfl (by decide)⟩

/-- Claim C8: when an authorized caller supplies a new wallet equal to the
entity's current wallet value, `update_plan` and `update_subscribtion`
fail with `NothingToUpdate`; failing, they mutate nothing. -/
theorem update_wallet_unchanged_rejected (env : Env) (st : State) (sender : AccountId) :
    (∀ plan_id plan space, require_plan st plan_id = Except.ok plan →
        require_space env plan.space_id = Except.ok space →
        ensure_subscriptions_manager sender space = Except.ok () →
        update_plan env st sender plan_id plan.wallet =
          Except.error Err.NothingToUpdate) ∧
    (∀ subscription_id subscription,
        require_subscription st subscription_id = Except.ok subscription →
        Subscription.ensure_subscriber subscription sender = Except.ok () →
        update_subscribtion st sender subscription_id subscription.wallet =
          Except.error Err.NothingToUpdate) := by
  constructor
  · intro plan_id plan space h1 h2 h3
    unfold update_plan
    rw [h1]
    simp only [h2, h3]
    simp
  · intro subscription_id subscription h1 h2
    unfold update_subscribtion
    rw [h1]
    simp only [h2]
    simp

/-- Witness for `update_wallet_unchanged_rejected`: concrete no-change
updates by the space owner and by the patron. -/
theorem update_wallet_unchanged_rejected_witness :
    update_plan env1 st1 10 1 plan1.wallet = Except.error Err.NothingToUpdate ∧
    update_subscribtion st2 2 1 oldSub.wallet = Except.error Err.NothingToUpdate :=
  ⟨(update_wallet_unchanged_rejected env1 st1 10).1 1 plan1
     { id := 1, owner := 10 } rfl rfl rfl,
   (update_wallet_unchanged_rejected env1 st2 2).2 1 oldSub rfl rfl⟩

/-- Claim C10: a successful wallet update rewrites exactly the target
entity's wallet field — the stored record is the old record with only
`wallet` replaced (in particular `updated` metadata is left as it was and
every other field keeps its value), every other key of the same map is
untouched, and every other component of the state is returned unchanged. -/
theorem update_wallet_only (env : Env) (st : State) (sender : AccountId) :
    (∀ plan_id plan new_wallet st',
        require_plan st plan_id = Except.ok plan →
        update_plan env st sender plan_id new_wallet = Except.ok st' →
        st' = { st with
          planById := insertA st.planById plan_id { plan with wallet := new_wallet } } ∧
        lookupA st'.planById plan_id = some { plan with wallet := new_wallet } ∧
        ∀ q, q ≠ plan_id → lookupA st'.planById q = lookupA st.planById q) ∧
    (∀ subscription_id subscription new_wallet st',
        require_subscription st subscription_id = Except.ok subscription →
        update_subscribtion st sender subscription_id new_wallet = Except.ok st' →
        st' = { st with subscriptionById := (insertA st.subscriptionById
          subscription_id { subscription with wallet := new_wallet }) } ∧
        lookupA st'.subscriptionById subscription_id =
          some { subscription with wallet := new_wallet } ∧
        ∀ q, q ≠ subscription_id →
          lookupA st'.subscriptionById q = lookupA st.subscriptionById q) := by
  constructor
  · intro plan_id plan new_wallet st' h1 h2
    unfold update_plan at h2
    rw [h1] at h2
    simp only [] at h2
    split at h2
    · exact Except.noConfusion h2
    · split at h2
      · exact Except.noConfusion h2
      · split at h2
        · injection h2 with h2
          subst h2
          refine ⟨rfl, ?_, ?_⟩
          · simp [lookupA_insertA]
          · intro q hq
            simp [lookupA_insertA, Ne.symm hq]
        · exact Except.noConfusion h2
  · intro subscription_id subscription new_wallet st' h1 h2
    unfold update_subscribtion at h2
    rw [h1] at h2
    simp only [] at h2
    split at h2
    · exact Except.noConfusion h2
    · split at h2
      · injection h2 with h2
        subst h2
        refine ⟨rfl, ?_, ?_⟩
        · simp [lookupA_insertA]
        · intro q hq
          simp [lookupA_insertA, Ne.symm hq]
      · exact Except.noConfusion h2

/-- Result state of a concrete successful `update_plan`. -/
def stU : State := (update_plan env1 st1 10 1 (some 9)).toOption.getD st1

/-- Result state of a concrete successful `update_subscribtion`. -/
def stU2 : State := (update_subscribtion st2 2 1 (some 9)).toOption.getD st2

/-- Witness for `update_wallet_only`: concrete successful updates on plan 1
and subscription 1, checked to have replaced only the wallet field. -/
theorem update_wallet_only_witness :
    update_plan env1 st1 10 1 (some 9) = Except.ok stU ∧
    lookupA stU.planById 1 = some { plan1 with wallet := some 9 } ∧
    update_subscribtion st2 2 1 (some 9) = Except.ok stU2 ∧
    lookupA stU2.subscriptionById 1 = some { oldSub with wallet := some 9 } :=
  ⟨rfl, ((update_wallet_only env1 st1 10).1 1 plan1 (some 9) stU rfl rfl).2.1, rfl,
   ((update_wallet_only env1 st2 2).2 1 oldSub (some 9) stU2 rfl rfl).2.1⟩

end SubsocialSubscriptions
